import Mathlib

/-!
Verification development for the KyberShield Rosenpass internal VPN tunnel hub
(`containers/rosenpass/app.py`).  The Python source is shallowly embedded:
byte strings become `List Nat` (one entry per byte), the hub's mutable
dictionaries `shared_secrets` / `connected_services` become association lists
inside `HubState`, and external library primitives (the `oqs` KEM, `hashlib`
SHA-256, and the `cryptography` AES-256-GCM cipher) are modelled by executable
deterministic stand-ins that preserve the interface contract the source relies
on (determinism, frame layout, tag checking, encrypt/decrypt inversion).
Fallible Python steps (socket I/O, decapsulation, base64 decoding) are
modelled with `Option` and explicit success flags; a raised-and-caught
exception corresponds to `none` / `false`.
-/

namespace Rosenpass

/-- ASCII bytes of a string literal: models Python `s.encode()` for ASCII text. -/
def asciiOf (s : String) : List Nat := s.data.map Char.toNat

/-- Hexadecimal digit character for a value below 16, as in `hexdigest`. -/
def hexChar (n : Nat) : Char := Char.ofNat (if n < 10 then 48 + n else 87 + n)

/-- The two hex characters of one byte. -/
def byteHexChars (b : Nat) : List Char := [hexChar (b / 16 % 16), hexChar (b % 16)]

/-- Models `hashlib.sha256(secret).hexdigest()[:16]` from
`_perform_key_exchange`: a deterministic digest of the shared secret,
truncated to 16 hex characters.  The stand-in hex-dumps the secret (padded
with zeros) instead of applying the SHA-256 compression function, which is an
external library primitive; every property proved here uses only that the
service id is a deterministic function of the shared secret. -/
def serviceIdOf (secret : List Nat) : String :=
  ⟨((secret.map byteHexChars).flatten ++ List.replicate 16 '0').take 16⟩

/-- Byte value of the base64 alphabet character at index `n` (standard
alphabet used by Python `base64.b64encode`). -/
def b64code (n : Nat) : Nat :=
  if n < 26 then 65 + n
  else if n < 52 then 97 + (n - 26)
  else if n < 62 then 48 + (n - 52)
  else if n = 62 then 43 else 47

/-- Index of a base64 alphabet character; `none` for a non-alphabet byte. -/
def b64val (c : Nat) : Option Nat :=
  if 65 ≤ c ∧ c ≤ 90 then some (c - 65)
  else if 97 ≤ c ∧ c ≤ 122 then some (c - 97 + 26)
  else if 48 ≤ c ∧ c ≤ 57 then some (c - 48 + 52)
  else if c = 43 then some 62
  else if c = 47 then some 63
  else none

/-- Models Python `base64.b64encode` on a byte string: three input bytes map
to four alphabet bytes, with `=` (61) padding for a trailing group of one or
two bytes. -/
def base64encode : List Nat → List Nat
  | [] => []
  | [a] => [b64code (a / 4), b64code (a % 4 * 16), 61, 61]
  | [a, b] => [b64code (a / 4), b64code (a % 4 * 16 + b / 16), b64code (b % 16 * 4), 61]
  | a :: b :: c :: rest =>
      b64code (a / 4) :: b64code (a % 4 * 16 + b / 16) ::
      b64code (b % 16 * 4 + c / 64) :: b64code (c % 64) :: base64encode rest

/-- Models Python `base64.b64decode` on canonically padded input (the hub
only ever decodes material produced by a peer's `b64encode`); malformed
input yields `none`, matching the raised-and-caught `binascii.Error`. -/
def base64decode : List Nat → Option (List Nat)
  | [] => some []
  | c1 :: c2 :: c3 :: c4 :: rest =>
    match b64val c1, b64val c2 with
    | some v1, some v2 =>
      if c3 = 61 then
        if c4 = 61 ∧ rest = [] then some [v1 * 4 + v2 / 16] else none
      else
        match b64val c3 with
        | some v3 =>
          if c4 = 61 then
            if rest = [] then some [v1 * 4 + v2 / 16, v2 % 16 * 16 + v3 / 4] else none
          else
            match b64val c4, base64decode rest with
            | some v4, some tail =>
                some ((v1 * 4 + v2 / 16) :: (v2 % 16 * 16 + v3 / 4) :: (v3 % 4 * 64 + v4) :: tail)
            | _, _ => none
        | none => none
    | _, _ => none
  | _ => none

/-- Whitespace bytes removed by Python `str.strip()`. -/
def isWsByte (c : Nat) : Bool :=
  c == 32 || c == 9 || c == 10 || c == 13 || c == 11 || c == 12

/-- Models Python `str.strip()` at the byte level. -/
def trimBytes (l : List Nat) : List Nat :=
  ((l.dropWhile isWsByte).reverse.dropWhile isWsByte).reverse

/-- Models Python `str.startswith` at the byte level. -/
def bytesStartsWith (resp pfx : List Nat) : Bool := resp.take pfx.length == pfx

/-- Association-list lookup: models Python `dict.get` / `dict[k]`. -/
def alLookup {α : Type} (k : String) (l : List (String × α)) : Option α :=
  (l.find? (fun p => p.1 == k)).map Prod.snd

/-- Association-list update: models Python `dict[k] = v` (replaces any prior
binding of `k`, leaving other keys untouched). -/
def alUpdate {α : Type} (k : String) (v : α) (l : List (String × α)) : List (String × α) :=
  (k, v) :: l.filter (fun p => p.1 != k)

/-- Association-list erasure: models Python `del dict[k]`. -/
def alErase {α : Type} (k : String) (l : List (String × α)) : List (String × α) :=
  l.filter (fun p => p.1 != k)

/-- Each key bound at most once: the dictionary shape of the two registries. -/
def keysNodup {α : Type} (l : List (String × α)) : Prop := (l.map Prod.fst).Nodup

instance {α : Type} (l : List (String × α)) : Decidable (keysNodup l) := by
  unfold keysNodup; infer_instance

/-- One keystream byte of the modelled AES-256-GCM cipher (see `keystream`). -/
def mixByte (key iv : List Nat) (i : Nat) : Nat :=
  (key.foldl (· * 31 + ·) 7 + iv.foldl (· * 131 + ·) 11 + i * 17) % 256

/-- Deterministic stand-in for the AES-256-GCM keystream produced by the
`cryptography` library under `key` and `iv`: the source only relies on the
cipher being a deterministic, length-preserving, self-inverse stream keyed by
`(key, iv)`. -/
def keystream (key iv : List Nat) (n : Nat) : List Nat :=
  (List.range n).map (mixByte key iv)

/-- Deterministic stand-in for the 16-byte GCM authentication tag over
`(key, iv, ciphertext)`. -/
def tagOf (key iv ct : List Nat) : List Nat :=
  (List.range 16).map
    (fun i => (key.foldl (· + ·) 0 + iv.foldl (· * 3 + ·) 5 + ct.foldl (· * 7 + ·) 9 + i) % 256)

/-- AES key lengths accepted by `algorithms.AES`; any other length raises,
which the source catches and turns into `None`. -/
def validKeyLen (k : List Nat) : Bool :=
  k.length == 16 || k.length == 24 || k.length == 32

/-- The encryption key both `_encrypt_tunnel_message` and
`_decrypt_tunnel_message` derive: `shared_secret[:32]`. -/
def aesKeyOf (secret : List Nat) : List Nat := secret.take 32

/-- One connected service's registry entry (`connected_services[sid]`):
transport handle, remote address, connect time, and the advertised
encryption label. -/
structure ServiceInfo where
  socket : Nat
  address : String
  connectedAt : String
  encryption : String
deriving DecidableEq, Repr

/-- The hub's mutable per-session state: `self.shared_secrets` and
`self.connected_services`. -/
structure HubState where
  sharedSecrets : List (String × List Nat)
  connectedServices : List (String × ServiceInfo)
deriving DecidableEq, Repr

/-- Body of `_encrypt_tunnel_message` after the secret lookup: derive the key
by truncation, run the modelled AES-256-GCM, and emit `iv ‖ tag ‖ ciphertext`.
The `secret = []` branch models Python's falsiness check `if not shared_secret`. -/
def encryptWithSecret (secret msg iv : List Nat) : Option (List Nat) :=
  if secret = [] then none
  else
    let key := aesKeyOf secret
    if validKeyLen key then
      let ct := List.zipWith Nat.xor msg (keystream key iv msg.length)
      some (iv ++ tagOf key iv ct ++ ct)
    else none

/-- Body of `_decrypt_tunnel_message` after the secret lookup: split the frame
as `data[:16] / data[16:32] / data[32:]`, check the tag, and decrypt; a tag
mismatch models the raised-and-caught `InvalidTag`. -/
def decryptWithSecret (secret data : List Nat) : Option (List Nat) :=
  if secret = [] then none
  else
    let key := aesKeyOf secret
    if validKeyLen key then
      let iv := data.take 16
      let tag := (data.drop 16).take 16
      let ct := data.drop 32
      if tagOf key iv ct = tag then
        some (List.zipWith Nat.xor ct (keystream key iv ct.length))
      else none
    else none

/-- `_encrypt_tunnel_message(message, service_id)`; `iv` is the
`os.urandom(16)` sample. -/
def encryptTunnelMessage (st : HubState) (msg : List Nat) (sid : String) (iv : List Nat) :
    Option (List Nat) :=
  match alLookup sid st.sharedSecrets with
  | none => none
  | some secret => encryptWithSecret secret msg iv

/-- `_decrypt_tunnel_message(encrypted_data, service_id)`. -/
def decryptTunnelMessage (st : HubState) (data : List Nat) (sid : String) : Option (List Nat) :=
  match alLookup sid st.sharedSecrets with
  | none => none
  | some secret => decryptWithSecret secret data

/-- Wire bytes of the server hello `f"PUB_KEY:{public_key_b64}\n".encode()`
sent in `_perform_key_exchange`. -/
def mkPubKeyMsg (pk : List Nat) : List Nat :=
  asciiOf "PUB_KEY:" ++ base64encode pk ++ [10]

/-- Wire bytes of the confirmation `f"CONNECTED:{service_id}\n".encode()`. -/
def mkConnectedMsg (sid : String) : List Nat :=
  asciiOf "CONNECTED:" ++ asciiOf sid ++ [10]

/-- The hub's parse of the client reply in `_perform_key_exchange`:
`response.startswith("ENCAP_SECRET:")`, then
`base64.b64decode(response.split(":", 1)[1].strip())`.  Since the guard fixes
the first colon at index 12, `split(":", 1)[1]` is `drop 13`. -/
def parseEncapMsg (resp : List Nat) : Option (List Nat) :=
  if bytesStartsWith resp (asciiOf "ENCAP_SECRET:") then
    base64decode (trimBytes (resp.drop 13))
  else none

/-- The per-connection environment of one `_perform_key_exchange` run:
the transport handle, whether each socket write succeeds, the bytes returned
by `recv` (`none` models a raised I/O/decode error), and the
`self.kem.decap_secret` oracle (`none` models a decapsulation failure or a
missing KEM object). -/
structure KexEnv where
  socket : Nat
  sendPubOk : Bool
  recvResult : Option (List Nat)
  decap : List Nat → Option (List Nat)
  confirmSendOk : Bool

/-- `_perform_key_exchange(client_socket)`: returns the updated hub state and
the `service_id` on success (`none` on any caught failure).  Note the source
stores the shared secret *before* sending the confirmation, so a failing
confirmation send leaves the stored secret behind. -/
def performKeyExchange (st : HubState) (kx : KexEnv) : HubState × Option String :=
  if kx.sendPubOk then
    match kx.recvResult with
    | none => (st, none)
    | some resp =>
      match parseEncapMsg resp with
      | none => (st, none)
      | some encBytes =>
        match kx.decap encBytes with
        | none => (st, none)
        | some secret =>
          let sid := serviceIdOf secret
          let st' := { st with sharedSecrets := alUpdate sid secret st.sharedSecrets }
          if kx.confirmSendOk then (st', some sid) else (st', none)
  else (st, none)

/-- The registration phase of `_handle_tunnel_connection`: run the key
exchange; on success insert the session into `connected_services` (plain
dict assignment — nothing is closed or returned for a colliding id); on
failure close the client socket.  Result: new state, the registered service
id, and the list of sockets closed during this phase. -/
def handleTunnelConnectionReg (st : HubState) (kx : KexEnv) (addr now : String) :
    HubState × Option String × List Nat :=
  let r := performKeyExchange st kx
  match r.2 with
  | some sid =>
      ({ r.1 with
          connectedServices :=
            alUpdate sid ⟨kx.socket, addr, now, "ML-KEM-768"⟩ r.1.connectedServices },
       some sid, [])
  | none => (r.1, none, [kx.socket])

/-- `_disconnect_service(service_id)`: remove the service from both
registries. -/
def disconnectService (st : HubState) (sid : String) : HubState :=
  { sharedSecrets := alErase sid st.sharedSecrets,
    connectedServices := alErase sid st.connectedServices }

/-- `_route_internal_message(message, sender_service_id)`.  `parsedTarget`
is the outcome of `json.loads(message).get('target_service')`: `none` models
a raised JSON error, `some none` a missing key.  Returns the (unchanged) hub
state and the frames written to target sockets; an absent target silently
falls through — no counter, no error return. -/
def routeInternalMessage (st : HubState) (parsedTarget : Option (Option String))
    (rawMsg : List Nat) (iv : List Nat) : HubState × List (Nat × List Nat) :=
  match parsedTarget with
  | none => (st, [])
  | some none => (st, [])
  | some (some tgt) =>
    match alLookup tgt st.connectedServices with
    | none => (st, [])
    | some info =>
      match encryptTunnelMessage st rawMsg tgt iv with
      | none => (st, [])
      | some frame => (st, [(info.socket, frame)])

/-- The `_handle_tunnel_messages` read loop over a trace of `recv` results:
`none` models a raised I/O error, `some []` an empty read — both exit the
loop, after which the `finally` block disconnects the service (the returned
`Bool` records that teardown ran).  A frame whose decryption fails is
skipped and the loop continues; a decrypted frame is routed (`po` is the
JSON target oracle, `iv` the router's `os.urandom(16)` sample).  An
exhausted trace means the worker is still blocked in `recv`: no teardown. -/
def tunnelLoop (po : List Nat → Option (Option String)) (iv : List Nat)
    (st : HubState) (sid : String) :
    List (Option (List Nat)) → HubState × List (Nat × List Nat) × Bool
  | [] => (st, [], false)
  | none :: _ => (disconnectService st sid, [], true)
  | some [] :: _ => (disconnectService st sid, [], true)
  | some (b :: bs) :: rest =>
    match decryptTunnelMessage st (b :: bs) sid with
    | some msg =>
      let r := routeInternalMessage st (po msg) msg iv
      let t := tunnelLoop po iv r.1 sid rest
      (t.1, r.2 ++ t.2.1, t.2.2)
    | none => tunnelLoop po iv st sid rest

/-- Response of `GET /stats` (`get_stats`), wall-clock `uptime` field
excluded.  The source exposes no delivered/dropped message counters. -/
structure StatsResponse where
  connectedServices : Nat
  activeTunnels : Nat
  encryptionAlgorithm : String
  tunnelType : String
  status : String
deriving DecidableEq, Repr

/-- `get_stats()`. -/
def getStats (st : HubState) : StatsResponse :=
  ⟨st.connectedServices.length, st.sharedSecrets.length, "Kyber768",
   "internal_service_communication", "active"⟩

/-- Response of `GET /health` (`health_check`), timestamp excluded. -/
structure HealthResponse where
  status : String
  service : String
  algorithm : String
  realQuantumCrypto : Bool
  quantumLibrary : String
  nistLevel : Nat
  connectedServices : Nat
deriving DecidableEq, Repr

/-- `health_check()`: `quantumAvailable` is the module-level
`QUANTUM_AVAILABLE` flag. -/
def healthCheck (quantumAvailable : Bool) (st : HubState) : HealthResponse :=
  ⟨"healthy", "rosenpass-internal-vpn", "Kyber768", quantumAvailable,
   if quantumAvailable then "liboqs-python" else "fallback", 3,
   st.connectedServices.length⟩

/-- The keypair-manager state set up by `_initialize_quantum_kem`. -/
structure KemState where
  kemAlgorithm : String
  kem : Option Nat
  publicKey : Option (List Nat)
deriving DecidableEq, Repr

/-- `_initialize_quantum_kem()`: `oqsResult` models
`oqs.KeyEncapsulation(...)` / `generate_keypair()` (`none` = raised, which
the source catches with an explicit "Don't raise, allow fallback operation"
comment).  The function is total: it never fails the process, whether or not
the quantum library is available — there is no require-quantum mode. -/
def initializeQuantumKem (quantumAvailable : Bool) (oqsResult : Option (Nat × List Nat)) :
    KemState :=
  if quantumAvailable then
    match oqsResult with
    | some hp => ⟨"Kyber768", some hp.1, some hp.2⟩
    | none => ⟨"Kyber768", none, none⟩
  else ⟨"Kyber768", none, none⟩

/-- Listener bookkeeping for `_start_tunnel_server`: handler threads spawned
by the accept loop (daemon threads, never joined) and connections the hub
itself refused. -/
structure ListenerState where
  activeHandlers : Nat
  refused : Nat
deriving DecidableEq, Repr

/-- The fixed argument of `server_socket.listen(5)` — an OS accept-queue
backlog, not a concurrency bound checked by the hub. -/
def listenBacklog : Nat := 5

/-- One iteration of the `while True` accept loop: accept and spawn a
handler thread; no cap is consulted and nothing is ever refused. -/
def acceptConnection (s : ListenerState) : ListenerState :=
  { s with activeHandlers := s.activeHandlers + 1 }

/-- The accept loop after `n` connection arrivals (no handler ever signals
completion back to the loop, so arrivals only accumulate). -/
def runAcceptLoop : Nat → ListenerState
  | 0 => ⟨0, 0⟩
  | n + 1 => acceptConnection (runAcceptLoop n)

/-- JSON body of `POST /send_message`. -/
structure SendMessageBody where
  sender : Option String
  target : Option String
  message : Option String
deriving DecidableEq, Repr

/-- HTTP outcome of `send_internal_message`. -/
inductive HttpResult where
  | ok (status : String) (tunnelId : String) (encryption : String)
  | badRequest (error : String)
deriving DecidableEq, Repr

/-- Python truthiness of an optional string (`all([...])` treats `None` and
`""` as false). -/
def pyTruthy : Option String → Bool
  | none => false
  | some s => !(s == "")

/-- `send_internal_message()` (`POST /send_message`): validates the fields,
builds a `tunnel_message` dict that is logged and dropped, and answers
`message_sent`.  It never consults the registries, never writes to a tunnel
socket; `now` is the `int(time.time())` sample used for the `tunnel_id`. -/
def sendInternalMessage (st : HubState) (body : SendMessageBody) (now : Nat) :
    HubState × HttpResult × List (Nat × List Nat) :=
  if pyTruthy body.sender && pyTruthy body.target && pyTruthy body.message then
    (st, .ok "message_sent" ("tunnel_" ++ toString now) "ML-KEM-768", [])
  else
    (st, .badRequest "Missing sender, target, or message", [])

/-- Follows the spec's words (§6): a length-prefixed frame begins with a
big-endian length field covering the remaining bytes.  `beVal` reads a
big-endian integer. -/
def beVal (l : List Nat) : Nat := l.foldl (fun a b => a * 256 + b) 0

/-- Follows the spec's words: `msg` is length-prefixed for *some* field width
`w ≥ 1` if its first `w` bytes read (big-endian) as the length of the rest.
Used only to compare the source's wire format against the spec's framing. -/
def hasLenHeader (msg : List Nat) : Bool :=
  (List.range (msg.length + 1)).any
    (fun w => decide (1 ≤ w) && (beVal (msg.take w) == (msg.drop w).length))

/-! ### Sample inputs used by the witnesses and counterexamples -/

/-- A 32-byte shared secret (the width ML-KEM-768 decapsulation yields). -/
def sampleSecret : List Nat := List.range 32

/-- A 48-byte secret, and a second one agreeing with it on the first 32 bytes. -/
def secret48 : List Nat := List.range 48

/-- Same first 32 bytes as `secret48`, different tail. -/
def secret48b : List Nat := List.range 32 ++ List.replicate 16 255

/-- A fixed `os.urandom(16)` sample. -/
def sampleIv : List Nat := List.range 16

/-- A registry entry for the samples. -/
def sampleInfo : ServiceInfo := ⟨3, "10.0.0.2", "t0", "ML-KEM-768"⟩

/-- Hub state with one established session `"svcA"`. -/
def stWithA : HubState := ⟨[("svcA", sampleSecret)], [("svcA", sampleInfo)]⟩

/-- Hub state with an established session under the id a colliding handshake
will derive (`serviceIdOf [9]`), transport handle `1`. -/
def stCollide : HubState :=
  ⟨[], [(serviceIdOf [9], ⟨1, "10.0.0.8", "t0", "ML-KEM-768"⟩)]⟩

/-- Key-exchange environment whose decapsulation yields `[9]` and whose
confirmation send succeeds; new transport handle `2`. -/
def kxCollide : KexEnv :=
  ⟨2, true, some (asciiOf "ENCAP_SECRET:" ++ base64encode [7]), fun _ => some [9], true⟩

/-- Key-exchange environment that fails exactly at the confirmation send. -/
def kxConfirmFail : KexEnv :=
  ⟨7, true, some (asciiOf "ENCAP_SECRET:" ++ base64encode [7]), fun _ => some sampleSecret,
   false⟩

/-- A one-byte tunnel frame; too short to carry a valid tag, so decryption
fails for every session. -/
def badFrame : List Nat := [5]

/-! ### Helper lemmas -/

theorem b64val_b64code : ∀ n : Nat, n < 64 → b64val (b64code n) = some n := by decide

theorem b64code_ne_61 (n : Nat) : b64code n ≠ 61 := by
  unfold b64code; split <;> [omega; split <;> [omega; split <;> [omega; split <;> omega]]]

theorem b64_roundtrip : ∀ l : List Nat, (∀ b ∈ l, b < 256) →
    base64decode (base64encode l) = some l
  | [], _ => rfl
  | [a], h => by
    have ha : a < 256 := h a (by simp)
    simp only [base64encode, base64decode,
      b64val_b64code (a / 4) (by omega), b64val_b64code (a % 4 * 16) (by omega)]
    simp
    omega
  | [a, b], h => by
    have ha : a < 256 := h a (by simp)
    have hb : b < 256 := h b (by simp)
    simp only [base64encode, base64decode,
      b64val_b64code (a / 4) (by omega), b64val_b64code (a % 4 * 16 + b / 16) (by omega),
      b64val_b64code (b % 16 * 4) (by omega)]
    rw [if_neg (b64code_ne_61 _)]
    simp
    omega
  | a :: b :: c :: rest, h => by
    have ha : a < 256 := h a (by simp)
    have hb : b < 256 := h b (by simp)
    have hc : c < 256 := h c (by simp)
    have ih := b64_roundtrip rest (fun x hx => h x (by simp [hx]))
    simp only [base64encode, base64decode,
      b64val_b64code (a / 4) (by omega), b64val_b64code (a % 4 * 16 + b / 16) (by omega),
      b64val_b64code (b % 16 * 4 + c / 64) (by omega), b64val_b64code (c % 64) (by omega)]
    rw [if_neg (b64code_ne_61 _), if_neg (b64code_ne_61 _), ih]
    simp
    omega

theorem b64code_bounds (n : Nat) : 43 ≤ b64code n ∧ b64code n ≤ 122 := by
  unfold b64code; split <;> [omega; split <;> [omega; split <;> [omega; split <;> omega]]]

theorem base64encode_bounds : ∀ l : List Nat, ∀ x ∈ base64encode l, 43 ≤ x ∧ x ≤ 122
  | [], x, hx => by simp [base64encode] at hx
  | [a], x, hx => by
    simp only [base64encode, List.mem_cons, List.not_mem_nil, or_false] at hx
    rcases hx with h | h | h | h <;> subst h <;> first | exact b64code_bounds _ | omega
  | [a, b], x, hx => by
    simp only [base64encode, List.mem_cons, List.not_mem_nil, or_false] at hx
    rcases hx with h | h | h | h <;> subst h <;> first | exact b64code_bounds _ | omega
  | a :: b :: c :: rest, x, hx => by
    simp only [base64encode, List.mem_cons] at hx
    rcases hx with h | h | h | h | h
    · subst h; exact b64code_bounds _
    · subst h; exact b64code_bounds _
    · subst h; exact b64code_bounds _
    · subst h; exact b64code_bounds _
    · exact base64encode_bounds rest x h

theorem isWsByte_false_of_ge (c : Nat) (h : 43 ≤ c) : isWsByte c = false := by
  simp only [isWsByte, Bool.or_eq_false_iff, beq_eq_false_iff_ne, ne_eq]
  omega

theorem dropWhile_eq_self_of_false {p : Nat → Bool} :
    ∀ l : List Nat, (∀ x ∈ l, p x = false) → l.dropWhile p = l
  | [], _ => rfl
  | a :: l, h => by
    have := h a (by simp)
    simp [List.dropWhile, this]

theorem trimBytes_eq_self (l : List Nat) (h : ∀ x ∈ l, isWsByte x = false) :
    trimBytes l = l := by
  unfold trimBytes
  rw [dropWhile_eq_self_of_false l h,
      dropWhile_eq_self_of_false l.reverse (fun x hx => h x (List.mem_reverse.mp hx)),
      List.reverse_reverse]

theorem trimBytes_base64encode (l : List Nat) :
    trimBytes (base64encode l) = base64encode l :=
  trimBytes_eq_self _ (fun x hx => isWsByte_false_of_ge x (base64encode_bounds l x hx).1)

theorem zipWith_xor_cancel : ∀ xs ks : List Nat, xs.length ≤ ks.length →
    List.zipWith Nat.xor (List.zipWith Nat.xor xs ks) ks = xs
  | [], _, _ => by simp
  | x :: xs, [], h => by simp at h
  | x :: xs, k :: ks, h => by
    simp only [List.zipWith_cons_cons, List.cons.injEq]
    refine ⟨?_, zipWith_xor_cancel xs ks (by simpa using h)⟩
    show x ^^^ k ^^^ k = x
    rw [Nat.xor_assoc, Nat.xor_self, Nat.xor_zero]

theorem tagOf_length (key iv ct : List Nat) : (tagOf key iv ct).length = 16 := by
  simp [tagOf]

theorem keystream_length (key iv : List Nat) (n : Nat) : (keystream key iv n).length = n := by
  simp [keystream]

theorem alLookup_alUpdate_self {α : Type} (k : String) (v : α) (l : List (String × α)) :
    alLookup k (alUpdate k v l) = some v := by
  simp [alLookup, alUpdate, List.find?]

theorem find?_filter_ne {α : Type} (k k' : String) (hne : k' ≠ k) :
    ∀ l : List (String × α),
      (l.filter (fun p => p.1 != k)).find? (fun p => p.1 == k') =
        l.find? (fun p => p.1 == k')
  | [] => rfl
  | p :: l => by
    by_cases hk : p.1 = k
    · have h1 : (p.1 != k) = false := by simp [hk]
      have h2 : (p.1 == k') = false := by simp [hk]; exact fun h => hne h.symm
      simp only [List.filter_cons, h1, List.find?, h2, Bool.false_eq_true, if_false]
      exact find?_filter_ne k k' hne l
    · have h1 : (p.1 != k) = true := by simp [hk]
      by_cases hk' : p.1 = k'
      · simp [List.filter_cons, h1, List.find?, hk', hne]
      · have h2 : (p.1 == k') = false := by simp [hk']
        simp only [List.filter_cons, h1, if_true, List.find?, h2, Bool.false_eq_true,
          if_false]
        exact find?_filter_ne k k' hne l

theorem alLookup_alUpdate_ne {α : Type} (k k' : String) (v : α) (l : List (String × α))
    (hne : k' ≠ k) : alLookup k' (alUpdate k v l) = alLookup k' l := by
  have h2 : (k == k') = false := by simp; exact fun h => hne h.symm
  simp only [alLookup, alUpdate, List.find?, h2, Bool.false_eq_true, if_false]
  rw [find?_filter_ne k k' hne l]

theorem keysNodup_alUpdate {α : Type} (k : String) (v : α) (l : List (String × α))
    (h : keysNodup l) : keysNodup (alUpdate k v l) := by
  unfold keysNodup alUpdate
  simp only [List.map_cons, List.nodup_cons]
  constructor
  · intro hk
    rcases List.mem_map.mp hk with ⟨p, hp, hfst⟩
    rcases List.mem_filter.mp hp with ⟨_, hpred⟩
    simp only [bne_iff_ne, ne_eq, decide_eq_true_eq] at hpred
    exact hpred hfst
  · exact ((List.filter_sublist l).map Prod.fst).nodup h

theorem performKeyExchange_connected (st : HubState) (kx : KexEnv) :
    (performKeyExchange st kx).1.connectedServices = st.connectedServices := by
  unfold performKeyExchange
  split
  · split
    · rfl
    · split
      · rfl
      · split
        · rfl
        · split <;> rfl
  · rfl

theorem runAcceptLoop_eq : ∀ n : Nat, runAcceptLoop n = ⟨n, 0⟩
  | 0 => rfl
  | n + 1 => by simp [runAcceptLoop, acceptConnection, runAcceptLoop_eq n]

/-! ### Claim theorems -/

/-- C1 (counterexample): the session key is not produced by a key-derivation
function over the full shared secret with a context string, and there are no
independent directional subkeys.  Concretely: two distinct 48-byte shared
secrets agreeing on their first 32 bytes encrypt identically (the key is the
raw truncation `shared_secret[:32]`), and the very frame produced by the
encrypt direction is accepted by the decrypt direction under the one stored
secret (a single key serves both directions). -/
theorem c1_counterexample :
    encryptWithSecret secret48 (asciiOf "hi") sampleIv =
      encryptWithSecret secret48b (asciiOf "hi") sampleIv ∧
    secret48 ≠ secret48b ∧
    Option.bind (encryptWithSecret secret48 (asciiOf "hi") sampleIv)
      (fun fr => decryptWithSecret secret48 fr) = some (asciiOf "hi") := by
  decide

/-- C1 (amended): the session key used by `_encrypt_tunnel_message` and
`_decrypt_tunnel_message` is the raw truncation `shared_secret[:32]` — both
directions behave identically for any two secrets agreeing on their first 32
bytes, so no key-derivation context and no directional subkeys exist. -/
theorem c1_key_is_raw_truncation (s1 s2 msg iv data : List Nat)
    (h : s1.take 32 = s2.take 32) :
    encryptWithSecret s1 msg iv = encryptWithSecret s2 msg iv ∧
    decryptWithSecret s1 data = decryptWithSecret s2 data := by
  have hkey : aesKeyOf s1 = aesKeyOf s2 := h
  have hemp : s1 = [] ↔ s2 = [] := by
    constructor <;> intro he
    · have hz : (List.take 32 s2).length = 0 := by rw [← h, he]; rfl
      simp only [List.length_take] at hz
      exact List.eq_nil_of_length_eq_zero (by omega)
    · have hz : (List.take 32 s1).length = 0 := by rw [h, he]; rfl
      simp only [List.length_take] at hz
      exact List.eq_nil_of_length_eq_zero (by omega)
  by_cases he : s1 = []
  · have he2 : s2 = [] := hemp.mp he
    subst he; subst he2
    exact ⟨rfl, rfl⟩
  · have he2 : s2 ≠ [] := fun hh => he (hemp.mpr hh)
    constructor <;> simp [encryptWithSecret, decryptWithSecret, he, he2, hkey]

/-- C1 (witness for the amended theorem at concrete inputs). -/
theorem c1_key_is_raw_truncation_witness :
    secret48.take 32 = secret48b.take 32 ∧
    (encryptWithSecret secret48 (asciiOf "yo") sampleIv =
        encryptWithSecret secret48b (asciiOf "yo") sampleIv ∧
      decryptWithSecret secret48 [1, 2] = decryptWithSecret secret48b [1, 2]) :=
  ⟨by decide,
   c1_key_is_raw_truncation secret48 secret48b (asciiOf "yo") sampleIv [1, 2] (by decide)⟩

/-- C5: for every session whose stored shared secret yields a valid AES key
(ML-KEM-768 always stores 32 bytes) and every payload, decrypting the frame
produced by encrypting that payload under the same session returns the
payload.  The source imposes no payload size limit, so the round trip is
proved for all payloads. -/
theorem c5_tunnel_roundtrip (st : HubState) (sid : String) (secret msg iv : List Nat)
    (hsec : alLookup sid st.sharedSecrets = some secret)
    (hkey : validKeyLen (aesKeyOf secret) = true)
    (hiv : iv.length = 16) :
    ∃ frame, encryptTunnelMessage st msg sid iv = some frame ∧
      decryptTunnelMessage st frame sid = some msg := by
  have hne : secret ≠ [] := by
    intro h
    rw [h] at hkey
    simp [aesKeyOf, validKeyLen] at hkey
  set key := aesKeyOf secret with hkeydef
  set ks := keystream key iv msg.length with hksdef
  set ct := List.zipWith Nat.xor msg ks with hctdef
  set tg := tagOf key iv ct with htgdef
  have htglen : tg.length = 16 := by rw [htgdef]; exact tagOf_length key iv ct
  have hkslen : ks.length = msg.length := by rw [hksdef]; exact keystream_length key iv _
  have hctlen : ct.length = msg.length := by
    rw [hctdef]; simp [hkslen]
  have hassoc : iv ++ tg ++ ct = iv ++ (tg ++ ct) := List.append_assoc iv tg ct
  have htake16 : (iv ++ tg ++ ct).take 16 = iv := by
    rw [hassoc, ← hiv]; exact List.take_left iv (tg ++ ct)
  have hdrop16 : (iv ++ tg ++ ct).drop 16 = tg ++ ct := by
    rw [hassoc, ← hiv]; exact List.drop_left iv (tg ++ ct)
  have htgtake : (tg ++ ct).take 16 = tg := by
    rw [← htglen]; exact List.take_left tg ct
  have hlen32 : (iv ++ tg).length = 32 := by simp [hiv, htglen]
  have hdrop32 : (iv ++ tg ++ ct).drop 32 = ct := by
    rw [← hlen32]; exact List.drop_left (iv ++ tg) ct
  refine ⟨iv ++ tg ++ ct, ?_, ?_⟩
  · simp only [encryptTunnelMessage, hsec, encryptWithSecret, if_neg hne, ← hkeydef, ← hksdef,
      ← hctdef, ← htgdef, hkey, if_pos]
  · simp only [decryptTunnelMessage, hsec, decryptWithSecret, if_neg hne, ← hkeydef, hkey,
      if_pos, htake16, hdrop16, hdrop32, htgtake, ← htgdef, if_pos rfl, hctlen, ← hksdef]
    rw [hctdef]
    rw [zipWith_xor_cancel msg ks (by omega)]

/-- Complete case analysis of `_perform_key_exchange`: either nothing
happened (failure before the secret was stored), or the decapsulated secret
was stored — and in the latter case the returned service id is `some` exactly
when the confirmation send succeeded. -/
theorem performKeyExchange_spec (st : HubState) (kx : KexEnv) :
    performKeyExchange st kx = (st, none) ∨
    (∃ sec, performKeyExchange st kx =
        ({ st with sharedSecrets := alUpdate (serviceIdOf sec) sec st.sharedSecrets },
         if kx.confirmSendOk then some (serviceIdOf sec) else none)) := by
  unfold performKeyExchange
  by_cases hs : kx.sendPubOk = true
  · rw [if_pos hs]
    cases hr : kx.recvResult with
    | none => exact Or.inl rfl
    | some resp =>
      cases hp : parseEncapMsg resp with
      | none => left; simp [hp]
      | some encBytes =>
        cases hd : kx.decap encBytes with
        | none => left; simp [hp, hd]
        | some secret =>
          right
          refine ⟨secret, ?_⟩
          by_cases hc : kx.confirmSendOk = true <;> simp [hp, hd, hc]
  · rw [if_neg hs]; exact Or.inl rfl

/-- C2 (counterexample): a handshake attempt that fails at the confirmation
send registers no session and closes the transport, but does NOT leave the
stored shared-secret state as it was: the decapsulated secret remains in
`shared_secrets`. -/
theorem c2_counterexample :
    (handleTunnelConnectionReg stWithA kxConfirmFail "10.0.0.9" "t1").2.1 = none ∧
    (handleTunnelConnectionReg stWithA kxConfirmFail "10.0.0.9" "t1").2.2 = [7] ∧
    (handleTunnelConnectionReg stWithA kxConfirmFail "10.0.0.9" "t1").1.connectedServices =
      stWithA.connectedServices ∧
    (handleTunnelConnectionReg stWithA kxConfirmFail "10.0.0.9" "t1").1.sharedSecrets ≠
      stWithA.sharedSecrets := by
  decide

/-- C2 (amended): every failed handshake closes the transport and registers
no session in `connected_services`; the stored secrets are unchanged when the
failure precedes decapsulation, but a failure at the confirmation send leaves
the just-decapsulated secret stored in `shared_secrets`. -/
theorem c2_failed_handshake_effects (st : HubState) (kx : KexEnv) (addr now : String)
    (h : (handleTunnelConnectionReg st kx addr now).2.1 = none) :
    (handleTunnelConnectionReg st kx addr now).1.connectedServices = st.connectedServices ∧
    (handleTunnelConnectionReg st kx addr now).2.2 = [kx.socket] ∧
    ((handleTunnelConnectionReg st kx addr now).1.sharedSecrets = st.sharedSecrets ∨
      (kx.confirmSendOk = false ∧ ∃ sec,
        (handleTunnelConnectionReg st kx addr now).1.sharedSecrets =
          alUpdate (serviceIdOf sec) sec st.sharedSecrets)) := by
  rcases performKeyExchange_spec st kx with hpe | ⟨sec, hpe⟩
  · have hmain : handleTunnelConnectionReg st kx addr now = (st, none, [kx.socket]) := by
      simp [handleTunnelConnectionReg, hpe]
    rw [hmain]
    exact ⟨rfl, rfl, Or.inl rfl⟩
  · by_cases hc : kx.confirmSendOk = true
    · have hmain : (handleTunnelConnectionReg st kx addr now).2.1 =
          some (serviceIdOf sec) := by
        simp [handleTunnelConnectionReg, hpe, hc]
      rw [hmain] at h
      exact absurd h (by simp)
    · have hc' : kx.confirmSendOk = false := by simpa using hc
      have hmain : handleTunnelConnectionReg st kx addr now =
          ({ sharedSecrets := alUpdate (serviceIdOf sec) sec st.sharedSecrets,
             connectedServices := st.connectedServices }, none, [kx.socket]) := by
        simp [handleTunnelConnectionReg, hpe, hc']
      rw [hmain]
      exact ⟨rfl, rfl, Or.inr ⟨hc', sec, rfl⟩⟩

/-- C2 (witness for the amended theorem: the confirmation-send failure run). -/
theorem c2_failed_handshake_effects_witness :
    (handleTunnelConnectionReg stWithA kxConfirmFail "10.0.0.9" "t1").2.1 = none ∧
    ((handleTunnelConnectionReg stWithA kxConfirmFail "10.0.0.9" "t1").1.connectedServices =
        stWithA.connectedServices ∧
      (handleTunnelConnectionReg stWithA kxConfirmFail "10.0.0.9" "t1").2.2 =
        [kxConfirmFail.socket] ∧
      ((handleTunnelConnectionReg stWithA kxConfirmFail "10.0.0.9" "t1").1.sharedSecrets =
          stWithA.sharedSecrets ∨
        (kxConfirmFail.confirmSendOk = false ∧ ∃ sec,
          (handleTunnelConnectionReg stWithA kxConfirmFail "10.0.0.9" "t1").1.sharedSecrets =
            alUpdate (serviceIdOf sec) sec stWithA.sharedSecrets))) :=
  ⟨by decide, c2_failed_handshake_effects stWithA kxConfirmFail "10.0.0.9" "t1" (by decide)⟩

/-- C3 (counterexample): a handshake deriving a service id already present in
the registry (prior session on transport `1`) completes, inserts the new
session — and closes nothing (`[]`), in particular not the prior session's
transport, and returns only the id, not the evicted session. -/
theorem c3_counterexample :
    (handleTunnelConnectionReg stCollide kxCollide "10.0.0.9" "t1").2.1 =
      some (serviceIdOf [9]) ∧
    (handleTunnelConnectionReg stCollide kxCollide "10.0.0.9" "t1").2.2 = [] ∧
    alLookup (serviceIdOf [9])
        (handleTunnelConnectionReg stCollide kxCollide "10.0.0.9" "t1").1.connectedServices =
      some ⟨2, "10.0.0.9", "t1", "ML-KEM-768"⟩ ∧
    alLookup (serviceIdOf [9]) stCollide.connectedServices =
      some ⟨1, "10.0.0.8", "t0", "ML-KEM-768"⟩ := by
  decide

/-- C3 (amended): registering a session under an already-present serviceId
replaces the prior binding in the map — each serviceId maps to at most one
session and other ids are untouched — but no transport is closed during
registration and the previous session is not returned to the caller. -/
theorem c3_insert_replaces_without_close (st : HubState) (kx : KexEnv) (addr now sid : String)
    (h : (handleTunnelConnectionReg st kx addr now).2.1 = some sid)
    (hnd : keysNodup st.connectedServices) :
    (handleTunnelConnectionReg st kx addr now).2.2 = [] ∧
    alLookup sid (handleTunnelConnectionReg st kx addr now).1.connectedServices =
      some ⟨kx.socket, addr, now, "ML-KEM-768"⟩ ∧
    (∀ k, k ≠ sid →
      alLookup k (handleTunnelConnectionReg st kx addr now).1.connectedServices =
        alLookup k st.connectedServices) ∧
    keysNodup (handleTunnelConnectionReg st kx addr now).1.connectedServices := by
  rcases performKeyExchange_spec st kx with hpe | ⟨sec, hpe⟩
  · have hmain : (handleTunnelConnectionReg st kx addr now).2.1 = none := by
      simp [handleTunnelConnectionReg, hpe]
    rw [hmain] at h
    exact absurd h (by simp)
  · by_cases hc : kx.confirmSendOk = true
    · have hsid : serviceIdOf sec = sid := by
        have h' := h
        simp [handleTunnelConnectionReg, hpe, hc] at h'
        exact h'
      subst hsid
      have hmain : handleTunnelConnectionReg st kx addr now =
          ({ sharedSecrets := alUpdate (serviceIdOf sec) sec st.sharedSecrets,
             connectedServices :=
               alUpdate (serviceIdOf sec) ⟨kx.socket, addr, now, "ML-KEM-768"⟩
                 st.connectedServices },
           some (serviceIdOf sec), []) := by
        simp [handleTunnelConnectionReg, hpe, hc]
      rw [hmain]
      exact ⟨rfl, alLookup_alUpdate_self _ _ _,
        fun k hk => alLookup_alUpdate_ne _ k _ _ hk,
        keysNodup_alUpdate _ _ _ hnd⟩
    · have hc' : kx.confirmSendOk = false := by simpa using hc
      have hmain : (handleTunnelConnectionReg st kx addr now).2.1 = none := by
        simp [handleTunnelConnectionReg, hpe, hc']
      rw [hmain] at h
      exact absurd h (by simp)

/-- C3 (witness for the amended theorem at the colliding-handshake run). -/
theorem c3_insert_replaces_without_close_witness :
    (handleTunnelConnectionReg stCollide kxCollide "10.0.0.9" "t1").2.1 =
      some (serviceIdOf [9]) ∧
    keysNodup stCollide.connectedServices ∧
    (handleTunnelConnectionReg stCollide kxCollide "10.0.0.9" "t1").2.2 = [] ∧
    alLookup (serviceIdOf [9])
        (handleTunnelConnectionReg stCollide kxCollide "10.0.0.9" "t1").1.connectedServices =
      some ⟨kxCollide.socket, "10.0.0.9", "t1", "ML-KEM-768"⟩ ∧
    alLookup "other"
        (handleTunnelConnectionReg stCollide kxCollide "10.0.0.9" "t1").1.connectedServices =
      alLookup "other" stCollide.connectedServices ∧
    keysNodup (handleTunnelConnectionReg stCollide kxCollide "10.0.0.9" "t1").1.connectedServices :=
  have hthm := c3_insert_replaces_without_close stCollide kxCollide "10.0.0.9" "t1"
    (serviceIdOf [9]) (by decide) (by decide)
  ⟨by decide, by decide, hthm.1, hthm.2.1, hthm.2.2.1 "other" (by decide), hthm.2.2.2⟩

/-- C5 (witness at concrete inputs: a 32-byte secret, a 16-byte IV, payload
`"hi"`). -/
theorem c5_tunnel_roundtrip_witness :
    alLookup "svcA" stWithA.sharedSecrets = some sampleSecret ∧
    validKeyLen (aesKeyOf sampleSecret) = true ∧
    sampleIv.length = 16 ∧
    (∃ frame, encryptTunnelMessage stWithA (asciiOf "hi") "svcA" sampleIv = some frame ∧
      decryptTunnelMessage stWithA frame "svcA" = some (asciiOf "hi")) :=
  ⟨by decide, by decide, by decide,
   c5_tunnel_roundtrip stWithA "svcA" sampleSecret (asciiOf "hi") sampleIv
     (by decide) (by decide) (by decide)⟩

/-- C4 (counterexample): after session `"svcA"` is removed, a message routed
to it leaves the hub state (and hence every `get_stats` field) unchanged and
performs no write — no drop counter is incremented (none exists) and no
delivery-failure indication is produced. -/
theorem c4_counterexample :
    alLookup "svcA" (disconnectService stWithA "svcA").connectedServices = none ∧
    routeInternalMessage (disconnectService stWithA "svcA") (some (some "svcA"))
        (asciiOf "m") sampleIv = (disconnectService stWithA "svcA", []) ∧
    getStats (routeInternalMessage (disconnectService stWithA "svcA") (some (some "svcA"))
        (asciiOf "m") sampleIv).1 = getStats (disconnectService stWithA "svcA") := by
  decide

/-- C4 (amended): routing an envelope whose target is not in the registry
silently does nothing: the state is returned unchanged and no frame is
written; the source maintains no dropped/delivered counters and surfaces no
failure. -/
theorem c4_route_absent_silent (st : HubState) (tgt : String) (raw iv : List Nat)
    (h : alLookup tgt st.connectedServices = none) :
    routeInternalMessage st (some (some tgt)) raw iv = (st, []) := by
  simp [routeInternalMessage, h]

/-- C4 (witness: routing to an unknown id in the empty registry). -/
theorem c4_route_absent_silent_witness :
    alLookup "ghost" (⟨[], []⟩ : HubState).connectedServices = none ∧
    routeInternalMessage ⟨[], []⟩ (some (some "ghost")) (asciiOf "m") sampleIv =
      (⟨[], []⟩, []) :=
  ⟨by decide, c4_route_absent_silent ⟨[], []⟩ "ghost" (asciiOf "m") sampleIv (by decide)⟩

/-- C6 (counterexample): there is no threshold of authentication failures
that tears a session down: for every candidate threshold `T`, after `T + 1`
frames that fail decryption the loop has neither disconnected the session
nor removed it from the registry — the source keeps no failure counter. -/
theorem c6_counterexample :
    ¬ ∃ threshold : Nat, ∀ n : Nat, n > threshold →
        ((tunnelLoop (fun _ => none) sampleIv stWithA "svcA"
            (List.replicate n (some badFrame))).2.2 = true ∨
          alLookup "svcA" (tunnelLoop (fun _ => none) sampleIv stWithA "svcA"
            (List.replicate n (some badFrame))).1.connectedServices = none) := by
  rintro ⟨T, hT⟩
  have hdec : decryptTunnelMessage stWithA [5] "svcA" = none := by decide
  have hrun : ∀ n, tunnelLoop (fun _ => none) sampleIv stWithA "svcA"
      (List.replicate n (some badFrame)) = (stWithA, [], false) := by
    intro n
    induction n with
    | zero => rfl
    | succ k ih =>
      rw [List.replicate_succ]
      simp only [tunnelLoop, badFrame, hdec]
      exact ih
  have h1 := hT (T + 1) (by omega)
  rw [hrun (T + 1)] at h1
  exact absurd h1 (by decide)

/-- C6 (amended): a frame that fails authentication is dropped without
tearing down the session — and this holds for arbitrarily many consecutive
failures: the loop neither disconnects the session, nor routes anything, nor
counts the failures (teardown happens only on an empty read or I/O error). -/
theorem c6_auth_failures_never_teardown (po : List Nat → Option (Option String))
    (iv : List Nat) (st : HubState) (sid : String) :
    ∀ chunks : List (Option (List Nat)),
      (∀ c ∈ chunks, ∃ b bs, c = some (b :: bs) ∧
        decryptTunnelMessage st (b :: bs) sid = none) →
      tunnelLoop po iv st sid chunks = (st, [], false)
  | [], _ => rfl
  | c :: rest, h => by
    obtain ⟨b, bs, rfl, hdec⟩ := h c (by simp)
    simp only [tunnelLoop, hdec]
    exact c6_auth_failures_never_teardown po iv st sid rest (fun x hx => h x (by simp [hx]))

/-- C6 (witness: two consecutive bad frames leave the session untouched). -/
theorem c6_auth_failures_never_teardown_witness :
    (∀ c ∈ [some badFrame, some badFrame], ∃ b bs, c = some (b :: bs) ∧
        decryptTunnelMessage stWithA (b :: bs) "svcA" = none) ∧
    tunnelLoop (fun _ => none) sampleIv stWithA "svcA" [some badFrame, some badFrame] =
      (stWithA, [], false) :=
  have hh : ∀ c ∈ [some badFrame, some badFrame], ∃ b bs, c = some (b :: bs) ∧
      decryptTunnelMessage stWithA (b :: bs) "svcA" = none := by
    intro c hcm
    simp only [List.mem_cons, List.not_mem_nil, or_false] at hcm
    rcases hcm with rfl | rfl
    · exact ⟨5, [], rfl, by decide⟩
    · exact ⟨5, [], rfl, by decide⟩
  ⟨hh, c6_auth_failures_never_teardown (fun _ => none) sampleIv stWithA "svcA"
    [some badFrame, some badFrame] hh⟩

/-- C7 (counterexample): with the post-quantum library unavailable,
initialization completes with a mock (empty) KEM state instead of failing —
the hub starts with downgraded cryptography under every circumstance, because
no require-quantum configuration exists in the source. -/
theorem c7_counterexample :
    initializeQuantumKem false none = ⟨"Kyber768", none, none⟩ ∧
    initializeQuantumKem false (some (1, [2])) = ⟨"Kyber768", none, none⟩ := by
  decide

/-- C7 (amended): when the library is unavailable the hub still initializes
(mock KEM, no fatal path, no require-quantum mode), and the degraded
capability is surfaced explicitly by `GET /health` via
`real_quantum_crypto = false` and `quantum_library = "fallback"`; with the
library available the same fields read `true` / `"liboqs-python"`. -/
theorem c7_no_fatal_and_flag_surfaced (oqsResult : Option (Nat × List Nat)) (st : HubState) :
    (initializeQuantumKem false oqsResult).kem = none ∧
    (initializeQuantumKem false oqsResult).publicKey = none ∧
    (healthCheck false st).realQuantumCrypto = false ∧
    (healthCheck false st).quantumLibrary = "fallback" ∧
    (healthCheck true st).realQuantumCrypto = true ∧
    (healthCheck true st).quantumLibrary = "liboqs-python" := by
  simp [initializeQuantumKem, healthCheck]

/-- C8 (counterexample): no concurrent-connection cap exists: for every
candidate cap, enough arrivals drive the number of accepted concurrent
handlers past it (the accept loop accepts unconditionally). -/
theorem c8_counterexample :
    ¬ ∃ cap : Nat, ∀ n : Nat, (runAcceptLoop n).activeHandlers ≤ cap := by
  rintro ⟨cap, hcap⟩
  have hc1 := hcap (cap + 1)
  rw [runAcceptLoop_eq (cap + 1)] at hc1
  simp at hc1

/-- C8 (amended): the accept loop accepts every arriving connection and
refuses none — after `n` arrivals there are `n` live handlers and `0`
refusals; the only bound in the source is the OS listen backlog constant 5,
which is not a concurrency cap enforced by the hub. -/
theorem c8_no_connection_cap (n : Nat) :
    runAcceptLoop n = ⟨n, 0⟩ ∧ listenBacklog = 5 :=
  ⟨runAcceptLoop_eq n, rfl⟩

/-- C9 (counterexample): the handshake messages built by the hub are ad-hoc
colon-delimited, newline-terminated text lines, and neither the public-key
message nor the confirmation message carries a length prefix under any
big-endian field width. -/
theorem c9_counterexample :
    mkPubKeyMsg [1, 2, 3] = asciiOf "PUB_KEY:AQID\n" ∧
    hasLenHeader (mkPubKeyMsg [1, 2, 3]) = false ∧
    mkConnectedMsg "0102030000000000" = asciiOf "CONNECTED:0102030000000000\n" ∧
    hasLenHeader (mkConnectedMsg "0102030000000000") = false := by
  decide

/-- C9 (amended): handshake messages are colon-delimited text frames with
base64 payloads — the hub's own parser (`startswith` / `split(":", 1)` /
`strip` / `b64decode`) recovers any encapsulated secret from the
`ENCAP_SECRET:` text frame carrying it. -/
theorem c9_text_framing_roundtrip (secret : List Nat) (h : ∀ b ∈ secret, b < 256) :
    parseEncapMsg (asciiOf "ENCAP_SECRET:" ++ base64encode secret) = some secret := by
  unfold parseEncapMsg
  have hsw : bytesStartsWith (asciiOf "ENCAP_SECRET:" ++ base64encode secret)
      (asciiOf "ENCAP_SECRET:") = true := by
    simp [bytesStartsWith, List.take_left]
  rw [if_pos hsw]
  have h13 : (asciiOf "ENCAP_SECRET:").length = 13 := rfl
  have hdrop : (asciiOf "ENCAP_SECRET:" ++ base64encode secret).drop 13 =
      base64encode secret := by
    rw [← h13]; exact List.drop_left _ _
  rw [hdrop, trimBytes_base64encode, b64_roundtrip secret h]

/-- C9 (witness for the parser round trip at a concrete secret). -/
theorem c9_text_framing_roundtrip_witness :
    (∀ b ∈ [1, 2, 3], b < 256) ∧
    parseEncapMsg (asciiOf "ENCAP_SECRET:" ++ base64encode [1, 2, 3]) = some [1, 2, 3] :=
  ⟨by decide, c9_text_framing_roundtrip [1, 2, 3] (by decide)⟩

/-- C10: a `POST /send_message` whose body has truthy (present, non-empty)
sender, target and message fields answers `message_sent` — for every hub
state, connected target or not — returns the state unchanged (both
registries untouched) and writes nothing to any tunnel socket. -/
theorem c10_send_message_no_effect (st : HubState) (body : SendMessageBody) (now : Nat)
    (hs : pyTruthy body.sender = true) (ht : pyTruthy body.target = true)
    (hm : pyTruthy body.message = true) :
    sendInternalMessage st body now =
      (st, .ok "message_sent" ("tunnel_" ++ toString now) "ML-KEM-768", []) := by
  simp [sendInternalMessage, hs, ht, hm]

/-- C10 (witness: a body addressed to a target that is not connected). -/
theorem c10_send_message_no_effect_witness :
    pyTruthy (some "svcA") = true ∧ pyTruthy (some "ghost") = true ∧
    pyTruthy (some "ping") = true ∧
    sendInternalMessage stWithA ⟨some "svcA", some "ghost", some "ping"⟩ 42 =
      (stWithA, .ok "message_sent" ("tunnel_" ++ toString 42) "ML-KEM-768", []) :=
  ⟨by decide, by decide, by decide,
   c10_send_message_no_effect stWithA ⟨some "svcA", some "ghost", some "ping"⟩ 42
     (by decide) (by decide) (by decide)⟩

end Rosenpass
